import Mathlib

/-!
Verification of the retail creative studio front end: the scene model,
the toolbar export gate, the auto-fix dispatchers of ValidatorPanel and
DesignAssistant, the smart-canvas snapping engine, the WCAG contrast
calculator, and the undo/redo history store.  Every definition is a
shallow embedding of the corresponding TypeScript source; machine
numbers are modelled as exact rationals (reals for the contrast
calculator, whose gamma curve uses a real exponent).
-/

namespace RetailStudio

/-- Issue severity, from the ValidationIssue type in types.ts. -/
inductive Severity
  | hard
  | warn
deriving DecidableEq, Repr

/-- One element of a layout, from the LayoutElement interface in types.ts.
Fields that a JS object may leave undefined are Options.  Fields not read
by any code under verification (z, rotation, font_family) are omitted. -/
structure LayoutElement where
  type : String
  asset : Option String
  x : Option ℚ
  y : Option ℚ
  width : Option ℚ
  height : Option ℚ
  text : Option String
  font_size : Option ℚ
  color : Option String
deriving DecidableEq, Repr

/-- A scene, from the Layout interface in types.ts. -/
structure Layout where
  id : String
  score : ℚ
  elements : List LayoutElement
deriving DecidableEq, Repr

/-- A validation issue, from the ValidationIssue interface in types.ts. -/
structure ValidationIssue where
  severity : Severity
  code : String
  message : String
  fix_suggestion : Option String
  element_id : Option String
deriving DecidableEq, Repr

/-- A validation result, from the ValidationResult interface in types.ts. -/
structure ValidationResult where
  ok : Bool
  issues : List ValidationIssue
  checked_rules : List String
deriving DecidableEq, Repr

/-- Toolbar.tsx: hasErrors, true when some issue has severity hard. -/
def hasErrors (r : ValidationResult) : Bool :=
  r.issues.any (fun i => i.severity == Severity.hard)

/-- Toolbar.tsx: hasWarnings, true when some issue has severity warn. -/
def hasWarnings (r : ValidationResult) : Bool :=
  r.issues.any (fun i => i.severity == Severity.warn)

/-- Toolbar.tsx: the Export button disabled flag, isLoading or hasErrors.
A null validationResult makes the optional chain undefined, hence falsy. -/
def exportDisabled (isLoading : Bool) (validationResult : Option ValidationResult) : Bool :=
  isLoading || (match validationResult with
    | some r => hasErrors r
    | none => false)

/-- DesignAssistant.tsx: isExportReady, true when the hard-issue list is empty. -/
def isExportReady (r : ValidationResult) : Bool :=
  (r.issues.filter (fun i => i.severity == Severity.hard)).length == 0

/-- Numeric value of one hexadecimal digit, as consumed by parseInt(-, 16). -/
def hexDigitVal (ch : Char) : Option ℕ :=
  if ch.isDigit then some (ch.toNat - Char.toNat '0')
  else if 'a' ≤ ch ∧ ch ≤ 'f' then some (ch.toNat - Char.toNat 'a' + 10)
  else if 'A' ≤ ch ∧ ch ≤ 'F' then some (ch.toNat - Char.toNat 'A' + 10)
  else none

/-- parseInt(s, 16) on a slice of at most two characters: parses the longest
hexadecimal prefix; an empty parse gives NaN, modelled as none. -/
def parseHex2 : List Char → Option ℕ
  | [] => none
  | [c] => hexDigitVal c
  | c1 :: c2 :: _ =>
    match hexDigitVal c1 with
    | none => none
    | some d1 =>
      match hexDigitVal c2 with
      | none => some d1
      | some d2 => some (16 * d1 + d2)

/-- String.prototype.replace with a plain-string pattern replaces only the
first occurrence, so replace drops the first matching character only. -/
def removeFirst (ch : Char) : List Char → List Char
  | [] => []
  | c :: cs => if c = ch then cs else c :: removeFirst ch cs

/-- isLightColor from ValidatorPanel.tsx and DesignAssistant.tsx: brightness
(r * 299 + g * 587 + b * 114) / 1000 of the parsed channel bytes, compared
with 128.  A NaN channel (failed parse) makes the comparison false. -/
def isLightColor (hex : String) : Bool :=
  match parseHex2 ((removeFirst '#' hex.toList).take 2),
      parseHex2 (((removeFirst '#' hex.toList).drop 2).take 2),
      parseHex2 (((removeFirst '#' hex.toList).drop 4).take 2) with
  | some r, some g, some b =>
    decide (((r : ℚ) * 299 + (g : ℚ) * 587 + (b : ℚ) * 114) / 1000 > 128)
  | _, _, _ => false

/-- JS truthiness in bgElement?.color || the white default: both a missing
and an empty colour string fall back to the default. -/
def jsOr (o : Option String) (d : String) : String :=
  match o with
  | some s => if s = "" then d else s
  | none => d

/-- The background colour read by both WCAG_CONTRAST_FAIL fixes:
the colour of the first background element, defaulting to white. -/
def bgColorOf (layout : Layout) : String :=
  jsOr ((layout.elements.find? (fun e => e.type == "background")).bind (fun e => e.color)) "#FFFFFF"

/-- ValidatorPanel safe-zone fixes target the element whose type equals the
first dash-separated component of the issue element_id; an absent or empty
element_id (falsy in JS) matches nothing. -/
def safeZoneTargets (issue : ValidationIssue) (e : LayoutElement) : Bool :=
  match issue.element_id with
  | some eid => eid != "" && e.type == (eid.splitOn "-").headD ""
  | none => false

/-- Both panels, TESCO_TAG_INVALID: rewrite every tesco_tag text to the
canonical string. -/
def fixTescoText (e : LayoutElement) : LayoutElement :=
  if e.type = "tesco_tag" then { e with text := some "Available at Tesco" } else e

/-- ValidatorPanel, FONT_SIZE_TOO_SMALL: raise a headline or subhead whose
font size (defaulted to 0) is below 20 to exactly 20. -/
def vpFixFont (e : LayoutElement) : LayoutElement :=
  if (e.type = "headline" ∨ e.type = "subhead") ∧ e.font_size.getD 0 < 20 then
    { e with font_size := some 20 } else e

/-- DesignAssistant, FONT_SIZE_TOO_SMALL: raise a too-small headline to 48
and a too-small subhead to 24. -/
def daFixFont (e : LayoutElement) : LayoutElement :=
  if (e.type = "headline" ∨ e.type = "subhead") ∧ e.font_size.getD 0 < 20 then
    { e with font_size := some (if e.type = "headline" then 48 else 24) } else e

/-- ValidatorPanel, SAFE_ZONE_*_VIOLATION: move the targeted element to
y = 12 (top violation) or y = 70 (bottom violation). -/
def vpFixSafeZone (issue : ValidationIssue) (e : LayoutElement) : LayoutElement :=
  if safeZoneTargets issue e then
    if issue.code = "SAFE_ZONE_TOP_VIOLATION" then { e with y := some 12 }
    else { e with y := some 70 }
  else e

/-- DesignAssistant, SAFE_ZONE_TOP_VIOLATION: move every non-background
element with y below 12 to y = 15. -/
def daFixSafeTop (e : LayoutElement) : LayoutElement :=
  if e.type ≠ "background" ∧ e.y.getD 0 < 12 then { e with y := some 15 } else e

/-- DesignAssistant, SAFE_ZONE_BOTTOM_VIOLATION: move every non-background,
non-tag element whose bottom edge passes 87 to y = 70. -/
def daFixSafeBottom (e : LayoutElement) : LayoutElement :=
  if e.type ≠ "background" ∧ e.type ≠ "tesco_tag" ∧ e.y.getD 0 + e.height.getD 0 > 87 then
    { e with y := some 70 } else e

/-- Both panels, DRINKAWARE_COLOR_INVALID: force drinkaware colour to black. -/
def fixDrinkawareColor (e : LayoutElement) : LayoutElement :=
  if e.type = "drinkaware" then { e with color := some "#000000" } else e

/-- Both panels, WCAG_CONTRAST_FAIL: recolour every headline and subhead to
the given colour. -/
def wcagRecolor (c : String) (e : LayoutElement) : LayoutElement :=
  if e.type = "headline" ∨ e.type = "subhead" then { e with color := some c } else e

/-- ValidatorPanel.applyAutoFix: the switch on issue.code as a pure layout
transform.  Unmapped codes (the default case) leave the layout unchanged. -/
def vpApplyAutoFix (issue : ValidationIssue) (layout : Layout) : Layout :=
  if issue.code = "TESCO_TAG_INVALID" then
    { layout with elements := layout.elements.map fixTescoText }
  else if issue.code = "FONT_SIZE_TOO_SMALL" then
    { layout with elements := layout.elements.map vpFixFont }
  else if issue.code = "SAFE_ZONE_TOP_VIOLATION" ∨ issue.code = "SAFE_ZONE_BOTTOM_VIOLATION" then
    { layout with elements := layout.elements.map (vpFixSafeZone issue) }
  else if issue.code = "DRINKAWARE_MISSING" then
    { layout with elements := layout.elements ++
        [⟨"drinkaware", none, some 35, some 92, some 30, some 3, none, none, some "#000000"⟩] }
  else if issue.code = "DRINKAWARE_COLOR_INVALID" then
    { layout with elements := layout.elements.map fixDrinkawareColor }
  else if issue.code = "WCAG_CONTRAST_FAIL" then
    let c := if isLightColor (bgColorOf layout) then "#000000" else "#FFFFFF"
    { layout with elements := layout.elements.map (wcagRecolor c) }
  else layout

/-- DesignAssistant.applyAutoFix: the switch on issue.code as a pure layout
transform.  Unmapped codes (the default case) leave the layout unchanged. -/
def daApplyAutoFix (issue : ValidationIssue) (layout : Layout) : Layout :=
  if issue.code = "TESCO_TAG_MISSING" then
    { layout with elements := layout.elements ++
        [⟨"tesco_tag", none, some 65, some 88, some 30, some 8, some "Available at Tesco", none, none⟩] }
  else if issue.code = "TESCO_TAG_INVALID" then
    { layout with elements := layout.elements.map fixTescoText }
  else if issue.code = "FONT_SIZE_TOO_SMALL" then
    { layout with elements := layout.elements.map daFixFont }
  else if issue.code = "SAFE_ZONE_TOP_VIOLATION" then
    { layout with elements := layout.elements.map daFixSafeTop }
  else if issue.code = "SAFE_ZONE_BOTTOM_VIOLATION" then
    { layout with elements := layout.elements.map daFixSafeBottom }
  else if issue.code = "DRINKAWARE_MISSING" then
    { layout with elements := layout.elements ++
        [⟨"drinkaware", none, some 35, some 94, some 30, some 3, none, none, some "#000000"⟩] }
  else if issue.code = "DRINKAWARE_COLOR_INVALID" then
    { layout with elements := layout.elements.map fixDrinkawareColor }
  else if issue.code = "WCAG_CONTRAST_FAIL" then
    let c := if isLightColor (bgColorOf layout) then "#1F2937" else "#FFFFFF"
    { layout with elements := layout.elements.map (wcagRecolor c) }
  else layout

/-- A concrete WCAG_CONTRAST_FAIL issue (only the code is dispatched on). -/
def wcagIssue : ValidationIssue :=
  ⟨Severity.hard, "WCAG_CONTRAST_FAIL", "contrast fail", some "adjust text colour", none⟩

/-- A concrete FONT_SIZE_TOO_SMALL issue. -/
def fontIssue : ValidationIssue :=
  ⟨Severity.hard, "FONT_SIZE_TOO_SMALL", "font too small", some "raise font size", none⟩

/-- A concrete TESCO_TAG_INVALID issue. -/
def tescoInvalidIssue : ValidationIssue :=
  ⟨Severity.hard, "TESCO_TAG_INVALID", "tag invalid", some "rewrite tag", none⟩

/-- A concrete DRINKAWARE_MISSING issue. -/
def drinkawareMissingIssue : ValidationIssue :=
  ⟨Severity.hard, "DRINKAWARE_MISSING", "drinkaware missing", some "add drinkaware", none⟩

/-- A small concrete layout: a white background and one small grey headline. -/
def demoLayout : Layout :=
  ⟨"demo", 1,
    [⟨"background", none, none, none, none, none, none, none, some "#FFFFFF"⟩,
     ⟨"headline", none, some 10, some 30, some 80, some 15, some "Big Sale", some 10, some "#CCCCCC"⟩]⟩

/-- Snap point kinds from smartCanvas.ts. -/
inductive SnapType
  | edge
  | center
  | guide
  | elem
  | safeZone
deriving DecidableEq, Repr

/-- A snap point: a vertical or horizontal line with its kind. -/
structure SnapPoint where
  x : Option ℚ
  y : Option ℚ
  type : SnapType
deriving DecidableEq, Repr

/-- One record of the SAFE_ZONES table in smartCanvas.ts. -/
structure SafeZone where
  top : ℚ
  bottom : ℚ
  left : ℚ
  right : ℚ
deriving DecidableEq, Repr

/-- SAFE_ZONES from smartCanvas.ts: format string to safe-zone bands
(Stories, Square, Landscape). -/
def SAFE_ZONES (format : String) : Option SafeZone :=
  if format = "1080x1920" then some ⟨200, 250, 0, 0⟩
  else if format = "1080x1080" then some ⟨0, 0, 0, 0⟩
  else if format = "1200x628" then some ⟨0, 0, 0, 0⟩
  else none

/-- The element-derived part of getSnapPoints: for every element except the
excluded index, backgrounds, and elements lacking x or y, its left, centre
and right vertical lines and its top, centre and bottom horizontal lines,
converted from percentages to pixels. -/
def elementSnapPoints (canvasWidth canvasHeight : ℚ) (excludeIndex : Option ℕ) :
    ℕ → List LayoutElement → List SnapPoint
  | _, [] => []
  | i, e :: rest =>
    (if excludeIndex = some i ∨ e.type = "background" then []
     else
       match e.x, e.y with
       | some ex, some ey =>
         let px := ex / 100 * canvasWidth
         let py := ey / 100 * canvasHeight
         let w := e.width.getD 0 / 100 * canvasWidth
         let h := e.height.getD 0 / 100 * canvasHeight
         [⟨some px, none, SnapType.elem⟩, ⟨some (px + w / 2), none, SnapType.elem⟩,
          ⟨some (px + w), none, SnapType.elem⟩, ⟨none, some py, SnapType.elem⟩,
          ⟨none, some (py + h / 2), SnapType.elem⟩, ⟨none, some (py + h), SnapType.elem⟩]
       | _, _ => [])
      ++ elementSnapPoints canvasWidth canvasHeight excludeIndex (i + 1) rest

/-- getSnapPoints from smartCanvas.ts: the canvas centre lines, the 5 percent
margin guides (the margin is computed from the width, also for the horizontal
guides, as in the source), the safe-zone bands of the hard-coded 1080x1920
table entry, then the element lines. -/
def getSnapPoints (elements : List LayoutElement) (canvasWidth canvasHeight : ℚ)
    (excludeIndex : Option ℕ) : List SnapPoint :=
  ⟨some (canvasWidth / 2), none, SnapType.center⟩ ::
  ⟨none, some (canvasHeight / 2), SnapType.center⟩ ::
  ⟨some (canvasWidth * 0.05), none, SnapType.guide⟩ ::
  ⟨some (canvasWidth - canvasWidth * 0.05), none, SnapType.guide⟩ ::
  ⟨none, some (canvasWidth * 0.05), SnapType.guide⟩ ::
  ⟨none, some (canvasHeight - canvasWidth * 0.05), SnapType.guide⟩ ::
  ((match SAFE_ZONES "1080x1920" with
    | some sz =>
      [⟨none, some sz.top, SnapType.safeZone⟩,
       ⟨none, some (canvasHeight - sz.bottom), SnapType.safeZone⟩]
    | none => []) ++ elementSnapPoints canvasWidth canvasHeight excludeIndex 0 elements)

/-- The per-axis loop of findSnapPosition: walk the snap-point list in order
and, at the first point whose coordinate lies within threshold of the leading
edge, the centre, or the trailing edge of the dragged span (tested in that
order), return the aligned position together with the point, and stop. -/
def scanAxis (cur size threshold : ℚ) (coord : SnapPoint → Option ℚ) :
    List SnapPoint → Option (ℚ × ℚ)
  | [] => none
  | p :: rest =>
    match coord p with
    | some c =>
      if |cur - c| < threshold then some (c, c)
      else if |cur + size / 2 - c| < threshold then some (c - size / 2, c)
      else if |cur + size - c| < threshold then some (c - size, c)
      else scanAxis cur size threshold coord rest
    | none => scanAxis cur size threshold coord rest

/-- The result record of findSnapPosition. -/
structure SnapResult where
  x : ℚ
  y : ℚ
  snappedX : Option ℚ
  snappedY : Option ℚ
deriving DecidableEq, Repr

/-- findSnapPosition from smartCanvas.ts: two independent first-fit scans of
the same point list, one per axis; an axis with no match keeps its input
coordinate and leaves its snapped flag unset. -/
def findSnapPosition (currentX currentY elementWidth elementHeight : ℚ)
    (snapPoints : List SnapPoint) (threshold : ℚ) : SnapResult :=
  match scanAxis currentX elementWidth threshold (fun p => p.x) snapPoints,
      scanAxis currentY elementHeight threshold (fun p => p.y) snapPoints with
  | some (fx, sx), some (fy, sy) => ⟨fx, fy, some sx, some sy⟩
  | some (fx, sx), none => ⟨fx, currentY, some sx, none⟩
  | none, some (fy, sy) => ⟨currentX, fy, none, some sy⟩
  | none, none => ⟨currentX, currentY, none, none⟩

/-- Stated from the spec: a snap point is hit when the leading edge, the
centre, or the trailing edge of the dragged span lies within the threshold. -/
def featHit (cur size threshold c : ℚ) : Prop :=
  |cur - c| < threshold ∨ |cur + size / 2 - c| < threshold ∨ |cur + size - c| < threshold

/-- Stated from the spec: the coordinate aligning the first matching feature
with the point, features tested in the order leading edge, centre, trailing
edge. -/
def alignFeat (cur size threshold c : ℚ) : ℚ :=
  if |cur - c| < threshold then c
  else if |cur + size / 2 - c| < threshold then c - size / 2
  else c - size

/-- MAX_HISTORY from store/index.ts. -/
def MAX_HISTORY : ℕ := 50

/-- The slice of the zustand store that the history claims concern: the
current layout, the undo history, and the cursor into it (a JS number,
modelled as an integer). -/
structure StoreState where
  layout : Option Layout
  history : List Layout
  historyIndex : ℤ
deriving DecidableEq, Repr

/-- setLayout from store/index.ts: a non-null layout truncates the history
after the cursor, appends a deep copy of the layout (a value copy here),
shifts off the oldest entry when MAX_HISTORY is exceeded, and moves the
cursor to the new last entry; a null layout only clears the layout field. -/
def setLayout (s : StoreState) (l : Option Layout) : StoreState :=
  match l with
  | some layout =>
    let newHistory := s.history.take (s.historyIndex + 1).toNat ++ [layout]
    if newHistory.length > MAX_HISTORY then
      { layout := some layout, history := newHistory.tail,
        historyIndex := (newHistory.tail.length : ℤ) - 1 }
    else
      { layout := some layout, history := newHistory,
        historyIndex := (newHistory.length : ℤ) - 1 }
  | none => { s with layout := none }

/-- A Partial LayoutElement as passed to updateElement; an absent field
leaves the element field unchanged under the spread merge. -/
structure ElementUpdates where
  x : Option ℚ
  y : Option ℚ
  width : Option ℚ
  height : Option ℚ
  text : Option String
  color : Option String
  font_size : Option ℚ
deriving DecidableEq, Repr

/-- The spread merge of updateElement: fields present in the update replace
the element's fields. -/
def applyUpdates (e : LayoutElement) (u : ElementUpdates) : LayoutElement :=
  { e with
    x := u.x.or e.x, y := u.y.or e.y, width := u.width.or e.width,
    height := u.height.or e.height, text := u.text.or e.text,
    color := u.color.or e.color, font_size := u.font_size.or e.font_size }

/-- updateElement from store/index.ts: elements are matched by asset key
(the id field the code also compares does not exist on LayoutElement); a
null layout is a no-op; the new layout goes through setLayout. -/
def updateElement (s : StoreState) (id : String) (u : ElementUpdates) : StoreState :=
  match s.layout with
  | none => s
  | some layout =>
    setLayout s (some { layout with elements := layout.elements.map (fun el =>
      if el.asset = some id then applyUpdates el u else el) })

/-- addElement from store/index.ts. -/
def addElement (s : StoreState) (e : LayoutElement) : StoreState :=
  match s.layout with
  | none => s
  | some layout => setLayout s (some { layout with elements := layout.elements ++ [e] })

/-- removeElement from store/index.ts. -/
def removeElement (s : StoreState) (id : String) : StoreState :=
  match s.layout with
  | none => s
  | some layout =>
    setLayout s (some { layout with
      elements := layout.elements.filter (fun el => el.asset != some id) })

/-- canUndo from store/index.ts. -/
def canUndo (s : StoreState) : Bool :=
  decide (s.historyIndex > 0)

/-- canRedo from store/index.ts. -/
def canRedo (s : StoreState) : Bool :=
  decide (s.historyIndex < (s.history.length : ℤ) - 1)

/-- undo from store/index.ts: a guarded cursor decrement; the layout becomes
a copy of the history entry at the new cursor (none when out of range, the
undefined a JS out-of-range index would produce). -/
def undo (s : StoreState) : StoreState :=
  if s.historyIndex > 0 then
    { s with historyIndex := s.historyIndex - 1,
             layout := s.history[(s.historyIndex - 1).toNat]? }
  else s

/-- redo from store/index.ts: the guarded cursor increment. -/
def redo (s : StoreState) : StoreState :=
  if s.historyIndex < (s.history.length : ℤ) - 1 then
    { s with historyIndex := s.historyIndex + 1,
             layout := s.history[(s.historyIndex + 1).toNat]? }
  else s

/-- The history invariant of C10. -/
def StoreInv (s : StoreState) : Prop :=
  0 ≤ s.historyIndex ∧ s.historyIndex ≤ (s.history.length : ℤ) - 1 ∧
    s.history.length ≤ MAX_HISTORY

/-- The default layout the store starts with, from store/index.ts. -/
def defaultLayout : Layout :=
  ⟨"default-layout", 1,
    [⟨"background", none, none, none, none, none, none, none, some "#FFFFFF"⟩,
     ⟨"headline", none, some 10, some 30, some 80, some 15, some "Click to edit headline",
       some 48, some "#1F2937"⟩,
     ⟨"subhead", none, some 10, some 48, some 80, some 8, some "Add your subheadline here",
       some 24, some "#6B7280"⟩,
     ⟨"tesco_tag", none, some 70, some 85, some 25, some 8, some "Available at Tesco",
       none, none⟩]⟩

/-- The initial store state from store/index.ts: the default layout is both
the current layout and the single history entry, with the cursor on it. -/
def initialStore : StoreState := ⟨some defaultLayout, [defaultLayout], 0⟩

/-- RGB bytes of a colour string as consumed by getLuminance: the regex
splits the string after the first hash into character pairs, each fed to
parseInt(-, 16).  A string that does not yield three bytes takes the
match-null fallback path of the source, modelled by none; the claims only
concern 6-hex-digit colours, where the two coincide. -/
def rgbBytes (hex : String) : Option (ℕ × ℕ × ℕ) :=
  let cs := removeFirst '#' hex.toList
  match parseHex2 (cs.take 2), parseHex2 ((cs.drop 2).take 2), parseHex2 ((cs.drop 4).take 2) with
  | some r, some g, some b => some (r, g, b)
  | _, _, _ => none

/-- The sRGB gamma expansion inside getLuminance; the source uses Math.pow
with the real exponent 2.4, modelled with the real power function. -/
noncomputable def gammaCorrect (c : ℝ) : ℝ :=
  if c ≤ 0.03928 then c / 12.92 else ((c + 0.055) / 1.055) ^ (2.4 : ℝ)

/-- getLuminance from smartCanvas.ts: WCAG relative luminance of a colour;
an unparsable colour falls back to the zero channels of the source. -/
noncomputable def getLuminance (hex : String) : ℝ :=
  match rgbBytes hex with
  | some (r, g, b) =>
    0.2126 * gammaCorrect (r / 255) + 0.7152 * gammaCorrect (g / 255)
      + 0.0722 * gammaCorrect (b / 255)
  | none =>
    0.2126 * gammaCorrect 0 + 0.7152 * gammaCorrect 0 + 0.0722 * gammaCorrect 0

/-- calculateContrastRatio from smartCanvas.ts: the WCAG contrast of the two
luminances. -/
noncomputable def calculateContrastRatio (color1 color2 : String) : ℝ :=
  (max (getLuminance color1) (getLuminance color2) + 0.05) /
    (min (getLuminance color1) (getLuminance color2) + 0.05)

/-- meetsWCAGAA from smartCanvas.ts: the ratio reaches the required level,
3 for font sizes of at least 24, else 4.5. -/
def meetsWCAGAA (textColor bgColor : String) (fontSize : ℚ) : Prop :=
  calculateContrastRatio textColor bgColor ≥ (if fontSize ≥ 24 then (3 : ℝ) else 4.5)

end RetailStudio

namespace RetailStudio

/-- C1: the Toolbar disables Export exactly when a request is in flight or
some issue has severity hard; DesignAssistant reports ready-to-export
exactly when the hard-issue list is empty; a result whose issues are all
warnings never disables export when no request is in flight. -/
theorem export_gate_iff_hard_issue (isLoading : Bool) (r : ValidationResult) :
    (exportDisabled isLoading (some r) = true ↔
      isLoading = true ∨ ∃ i ∈ r.issues, i.severity = Severity.hard) ∧
    (isExportReady r = true ↔ ¬ ∃ i ∈ r.issues, i.severity = Severity.hard) ∧
    ((∀ i ∈ r.issues, i.severity = Severity.warn) →
      exportDisabled false (some r) = false) := by
  refine ⟨?_, ?_, ?_⟩
  · simp [exportDisabled, hasErrors, List.any_eq_true]
  · simp [isExportReady, List.length_eq_zero, List.filter_eq_nil_iff]
  · intro hwarn
    simp only [exportDisabled, hasErrors, Bool.false_or, List.any_eq_false]
    intro i hi
    have := hwarn i hi
    simp [this]

/-- Witness for C1 at a concrete warn-only result: export is not disabled. -/
theorem export_gate_iff_hard_issue_witness :
    exportDisabled false (some ⟨true, [⟨Severity.warn, "ELEMENT_COUNT", "too many", none, none⟩], []⟩) = false :=
  (export_gate_iff_hard_issue false
      ⟨true, [⟨Severity.warn, "ELEMENT_COUNT", "too many", none, none⟩], []⟩).2.2
    (by decide)

/-- C2 (amended): the two dispatch sites implement the same transform for
TESCO_TAG_INVALID and DRINKAWARE_COLOR_INVALID; the remaining five shared
codes are handled differently by the two panels. -/
theorem autofix_sites_agree (issue : ValidationIssue) (L : Layout)
    (h : issue.code = "TESCO_TAG_INVALID" ∨ issue.code = "DRINKAWARE_COLOR_INVALID") :
    vpApplyAutoFix issue L = daApplyAutoFix issue L := by
  rcases h with h | h <;> simp [vpApplyAutoFix, daApplyAutoFix, h]

/-- Witness for C2 at a concrete issue and layout. -/
theorem autofix_sites_agree_witness :
    vpApplyAutoFix tescoInvalidIssue demoLayout = daApplyAutoFix tescoInvalidIssue demoLayout :=
  autofix_sites_agree tescoInvalidIssue demoLayout (Or.inl rfl)

/-- C2 counterexample: on FONT_SIZE_TOO_SMALL, one of the seven codes the
claim covers, the two dispatch sites disagree (ValidatorPanel raises a
too-small headline to 20, DesignAssistant to 48). -/
theorem autofix_sites_disagree_cex :
    vpApplyAutoFix fontIssue demoLayout ≠ daApplyAutoFix fontIssue demoLayout := by
  decide

/-- Idempotence of a list map follows from pointwise idempotence. -/
theorem map_idem_of_fun {α : Type} (f : α → α) (h : ∀ a, f (f a) = f a) (l : List α) :
    (l.map f).map f = l.map f := by
  rw [List.map_map]
  exact List.map_congr_left fun a _ => h a

/-- The WCAG colour rewrite touches only headline and subhead elements, so
the first background element found after one application is unchanged. -/
theorem find_bg_map_wcag (c : String) (l : List LayoutElement) :
    (l.map (wcagRecolor c)).find? (fun e => e.type == "background")
      = l.find? (fun e => e.type == "background") := by
  induction l with
  | nil => rfl
  | cons a l ih =>
    by_cases hb : a.type = "background"
    · have hno : ¬ (a.type = "headline" ∨ a.type = "subhead") := by simp [hb]
      simp [List.find?_cons, wcagRecolor, hno, hb, ih]
    · by_cases hh : a.type = "headline" ∨ a.type = "subhead"
      · simp [List.find?_cons, wcagRecolor, hh, hb, ih]
      · simp [List.find?_cons, wcagRecolor, hh, hb, ih]

/-- One WCAG recolouring pass leaves the computed background colour intact. -/
theorem bgColorOf_wcag (c : String) (L : Layout) :
    bgColorOf { L with elements := L.elements.map (wcagRecolor c) } = bgColorOf L := by
  unfold bgColorOf
  dsimp only
  rw [find_bg_map_wcag]

/-- The tesco_tag text rewrite is pointwise idempotent. -/
theorem fixTescoText_idem (e : LayoutElement) : fixTescoText (fixTescoText e) = fixTescoText e := by
  by_cases h : e.type = "tesco_tag" <;> simp [fixTescoText, h]

/-- The ValidatorPanel font fix is pointwise idempotent. -/
theorem vpFixFont_idem (e : LayoutElement) : vpFixFont (vpFixFont e) = vpFixFont e := by
  by_cases h : (e.type = "headline" ∨ e.type = "subhead") ∧ e.font_size.getD 0 < 20 <;>
    simp [vpFixFont, h]

/-- The DesignAssistant font fix is pointwise idempotent. -/
theorem daFixFont_idem (e : LayoutElement) : daFixFont (daFixFont e) = daFixFont e := by
  unfold daFixFont
  split_ifs <;> rfl

/-- The ValidatorPanel safe-zone relocation is pointwise idempotent. -/
theorem vpFixSafeZone_idem (issue : ValidationIssue) (e : LayoutElement) :
    vpFixSafeZone issue (vpFixSafeZone issue e) = vpFixSafeZone issue e := by
  by_cases h : safeZoneTargets issue e = true <;>
    by_cases hc : issue.code = "SAFE_ZONE_TOP_VIOLATION" <;>
      simp [vpFixSafeZone, safeZoneTargets, h, hc] <;>
        cases hid : issue.element_id <;> simp_all [safeZoneTargets]

/-- The DesignAssistant top safe-zone relocation is pointwise idempotent. -/
theorem daFixSafeTop_idem (e : LayoutElement) : daFixSafeTop (daFixSafeTop e) = daFixSafeTop e := by
  unfold daFixSafeTop
  split_ifs <;> rfl

/-- The DesignAssistant bottom safe-zone relocation is pointwise idempotent. -/
theorem daFixSafeBottom_idem (e : LayoutElement) :
    daFixSafeBottom (daFixSafeBottom e) = daFixSafeBottom e := by
  unfold daFixSafeBottom
  split_ifs <;> simp_all

/-- The drinkaware recolouring is pointwise idempotent. -/
theorem fixDrinkawareColor_idem (e : LayoutElement) :
    fixDrinkawareColor (fixDrinkawareColor e) = fixDrinkawareColor e := by
  by_cases h : e.type = "drinkaware" <;> simp [fixDrinkawareColor, h]

/-- The WCAG recolouring with a fixed colour is pointwise idempotent. -/
theorem wcagRecolor_idem (c : String) (e : LayoutElement) :
    wcagRecolor c (wcagRecolor c e) = wcagRecolor c e := by
  by_cases h : e.type = "headline" ∨ e.type = "subhead" <;> simp [wcagRecolor, h]

/-- Re-applying a pointwise idempotent element map to a layout it already
produced changes nothing. -/
theorem update_map_idem (f : LayoutElement → LayoutElement) (h : ∀ e, f (f e) = f e)
    (L M : Layout) (hM : M = { L with elements := L.elements.map f }) :
    { M with elements := M.elements.map f } = M := by
  subst hM
  dsimp only
  rw [map_idem_of_fun f h]

/-- C9 (amended): every transform registered in either switch is idempotent
as a layout transformation, except the element-appending ones:
DRINKAWARE_MISSING in both panels and TESCO_TAG_MISSING in DesignAssistant,
which append a fresh element on every application. -/
theorem autofix_transforms_idempotent (issue : ValidationIssue) (L : Layout)
    (hdm : issue.code ≠ "DRINKAWARE_MISSING") :
    vpApplyAutoFix issue (vpApplyAutoFix issue L) = vpApplyAutoFix issue L ∧
    (issue.code ≠ "TESCO_TAG_MISSING" →
      daApplyAutoFix issue (daApplyAutoFix issue L) = daApplyAutoFix issue L) := by
  constructor
  · by_cases h1 : issue.code = "TESCO_TAG_INVALID"
    · unfold vpApplyAutoFix
      simp only [if_pos h1]
      exact update_map_idem fixTescoText fixTescoText_idem L _ rfl
    by_cases h2 : issue.code = "FONT_SIZE_TOO_SMALL"
    · unfold vpApplyAutoFix
      simp only [if_neg h1, if_pos h2]
      exact update_map_idem vpFixFont vpFixFont_idem L _ rfl
    by_cases h3 : issue.code = "SAFE_ZONE_TOP_VIOLATION" ∨ issue.code = "SAFE_ZONE_BOTTOM_VIOLATION"
    · unfold vpApplyAutoFix
      simp only [if_neg h1, if_neg h2, if_pos h3]
      exact update_map_idem (vpFixSafeZone issue) (vpFixSafeZone_idem issue) L _ rfl
    by_cases h5 : issue.code = "DRINKAWARE_COLOR_INVALID"
    · unfold vpApplyAutoFix
      simp only [if_neg h1, if_neg h2, if_neg h3, if_neg hdm, if_pos h5]
      exact update_map_idem fixDrinkawareColor fixDrinkawareColor_idem L _ rfl
    by_cases h6 : issue.code = "WCAG_CONTRAST_FAIL"
    · unfold vpApplyAutoFix
      simp only [if_neg h1, if_neg h2, if_neg h3, if_neg hdm, if_neg h5, if_pos h6]
      rw [bgColorOf_wcag]
      exact update_map_idem _ (wcagRecolor_idem _) L _ rfl
    · unfold vpApplyAutoFix
      simp only [if_neg h1, if_neg h2, if_neg h3, if_neg hdm, if_neg h5, if_neg h6]
  · intro htm
    by_cases g2 : issue.code = "TESCO_TAG_INVALID"
    · unfold daApplyAutoFix
      simp only [if_neg htm, if_pos g2]
      exact update_map_idem fixTescoText fixTescoText_idem L _ rfl
    by_cases g3 : issue.code = "FONT_SIZE_TOO_SMALL"
    · unfold daApplyAutoFix
      simp only [if_neg htm, if_neg g2, if_pos g3]
      exact update_map_idem daFixFont daFixFont_idem L _ rfl
    by_cases g4 : issue.code = "SAFE_ZONE_TOP_VIOLATION"
    · unfold daApplyAutoFix
      simp only [if_neg htm, if_neg g2, if_neg g3, if_pos g4]
      exact update_map_idem daFixSafeTop daFixSafeTop_idem L _ rfl
    by_cases g5 : issue.code = "SAFE_ZONE_BOTTOM_VIOLATION"
    · unfold daApplyAutoFix
      simp only [if_neg htm, if_neg g2, if_neg g3, if_neg g4, if_pos g5]
      exact update_map_idem daFixSafeBottom daFixSafeBottom_idem L _ rfl
    by_cases g7 : issue.code = "DRINKAWARE_COLOR_INVALID"
    · unfold daApplyAutoFix
      simp only [if_neg htm, if_neg g2, if_neg g3, if_neg g4, if_neg g5, if_neg hdm, if_pos g7]
      exact update_map_idem fixDrinkawareColor fixDrinkawareColor_idem L _ rfl
    by_cases g8 : issue.code = "WCAG_CONTRAST_FAIL"
    · unfold daApplyAutoFix
      simp only [if_neg htm, if_neg g2, if_neg g3, if_neg g4, if_neg g5, if_neg hdm, if_neg g7,
        if_pos g8]
      rw [bgColorOf_wcag]
      exact update_map_idem _ (wcagRecolor_idem _) L _ rfl
    · unfold daApplyAutoFix
      simp only [if_neg htm, if_neg g2, if_neg g3, if_neg g4, if_neg g5, if_neg hdm, if_neg g7,
        if_neg g8]

/-- Witness for C9 at a concrete non-appending issue and layout. -/
theorem autofix_transforms_idempotent_witness :
    vpApplyAutoFix fontIssue (vpApplyAutoFix fontIssue demoLayout)
        = vpApplyAutoFix fontIssue demoLayout ∧
    daApplyAutoFix fontIssue (daApplyAutoFix fontIssue demoLayout)
        = daApplyAutoFix fontIssue demoLayout :=
  ⟨(autofix_transforms_idempotent fontIssue demoLayout (by decide)).1,
   (autofix_transforms_idempotent fontIssue demoLayout (by decide)).2 (by decide)⟩

/-- C9 counterexample: the DRINKAWARE_MISSING fix appends a drinkaware
element unconditionally, so applying it twice appends two elements and the
transform is not idempotent. -/
theorem drinkaware_fix_not_idempotent_cex :
    vpApplyAutoFix drinkawareMissingIssue (vpApplyAutoFix drinkawareMissingIssue demoLayout)
      ≠ vpApplyAutoFix drinkawareMissingIssue demoLayout := by
  decide

/-- C8 (amended): the WCAG_CONTRAST_FAIL fix recolours exactly the headline
and subhead elements, to black (ValidatorPanel) or the dark grey 1F2937
(DesignAssistant) when the background brightness
(299 r + 587 g + 114 b) / 1000 exceeds 128, and to white otherwise; a
missing background colour defaults to white; other elements are unchanged. -/
theorem wcag_fix_recolors (L : Layout) :
    (vpApplyAutoFix wcagIssue L).elements
      = L.elements.map (fun e =>
          if e.type = "headline" ∨ e.type = "subhead" then
            { e with color := some (if isLightColor (bgColorOf L) then "#000000" else "#FFFFFF") }
          else e) ∧
    (daApplyAutoFix wcagIssue L).elements
      = L.elements.map (fun e =>
          if e.type = "headline" ∨ e.type = "subhead" then
            { e with color := some (if isLightColor (bgColorOf L) then "#1F2937" else "#FFFFFF") }
          else e) := by
  exact ⟨rfl, rfl⟩

/-- The parsed channel bytes of the white colour string. -/
theorem white_parses :
    parseHex2 ((removeFirst '#' "#FFFFFF".toList).take 2) = some 255 ∧
    parseHex2 (((removeFirst '#' "#FFFFFF".toList).drop 2).take 2) = some 255 ∧
    parseHex2 (((removeFirst '#' "#FFFFFF".toList).drop 4).take 2) = some 255 := by
  decide

/-- White counts as a light background for the contrast fixes. -/
theorem isLightColor_white : isLightColor "#FFFFFF" = true := by
  unfold isLightColor
  rw [white_parses.1, white_parses.2.1, white_parses.2.2]
  simp only [decide_eq_true_eq]
  norm_num

/-- C8 counterexample: on a light (white) background, DesignAssistant's
WCAG_CONTRAST_FAIL fix recolours the headline to the dark grey 1F2937
rather than to black as the claim states. -/
theorem wcag_fix_not_black_cex :
    isLightColor (bgColorOf demoLayout) = true ∧
    (daApplyAutoFix wcagIssue demoLayout).elements.map (fun e => e.color)
      = [some "#FFFFFF", some "#1F2937"] ∧
    (some "#1F2937" : Option String) ≠ some "#000000" := by
  have hbg : bgColorOf demoLayout = "#FFFFFF" := by decide
  have hlight : isLightColor (bgColorOf demoLayout) = true := by
    rw [hbg]
    exact isLightColor_white
  have h1 : daApplyAutoFix wcagIssue demoLayout
      = { demoLayout with elements := demoLayout.elements.map (wcagRecolor "#1F2937") } := by
    simp [daApplyAutoFix, wcagIssue, hlight]
  have hmap : (daApplyAutoFix wcagIssue demoLayout).elements.map (fun e => e.color)
      = [some "#FFFFFF", some "#1F2937"] := by
    rw [h1]
    decide
  have hne : (some "#1F2937" : Option String) ≠ some "#000000" := by decide
  exact ⟨hlight, hmap, hne⟩

/-- An axis scan returns none when no listed point is hit on that axis. -/
theorem scanAxis_eq_none (cur size t : ℚ) (coord : SnapPoint → Option ℚ)
    (points : List SnapPoint)
    (h : ∀ p ∈ points, ∀ c, coord p = some c → ¬ featHit cur size t c) :
    scanAxis cur size t coord points = none := by
  induction points with
  | nil => rfl
  | cons p rest ih =>
    have hrest : ∀ q ∈ rest, ∀ c, coord q = some c → ¬ featHit cur size t c :=
      fun q hq => h q (List.mem_cons_of_mem _ hq)
    cases hc : coord p with
    | none =>
      simp only [scanAxis, hc]
      exact ih hrest
    | some c =>
      have hnot := h p (List.mem_cons_self p rest) c hc
      have h1 : ¬ |cur - c| < t := fun hx => hnot (Or.inl hx)
      have h2 : ¬ |cur + size / 2 - c| < t := fun hx => hnot (Or.inr (Or.inl hx))
      have h3 : ¬ |cur + size - c| < t := fun hx => hnot (Or.inr (Or.inr hx))
      simp only [scanAxis, hc, if_neg h1, if_neg h2, if_neg h3]
      exact ih hrest

/-- An axis scan stops at the first hit point in list order and aligns the
first matching feature of that point. -/
theorem scanAxis_first (cur size t : ℚ) (coord : SnapPoint → Option ℚ)
    (l1 l2 : List SnapPoint) (p : SnapPoint) (c : ℚ)
    (hc : coord p = some c) (hhit : featHit cur size t c)
    (hmiss : ∀ q ∈ l1, ∀ d, coord q = some d → ¬ featHit cur size t d) :
    scanAxis cur size t coord (l1 ++ p :: l2) = some (alignFeat cur size t c, c) := by
  induction l1 with
  | nil =>
    simp only [List.nil_append, scanAxis, hc]
    unfold alignFeat
    split_ifs <;> first | rfl | (rcases hhit with h | h | h <;> contradiction)
  | cons q l1 ih =>
    have hq := hmiss q (List.mem_cons_self q _)
    have hrest : ∀ r ∈ l1, ∀ d, coord r = some d → ¬ featHit cur size t d :=
      fun r hr => hmiss r (List.mem_cons_of_mem _ hr)
    cases hcq : coord q with
    | none =>
      simp only [List.cons_append, scanAxis, hcq]
      exact ih hrest
    | some d =>
      have hnot := hq d hcq
      have h1 : ¬ |cur - d| < t := fun hx => hnot (Or.inl hx)
      have h2 : ¬ |cur + size / 2 - d| < t := fun hx => hnot (Or.inr (Or.inl hx))
      have h3 : ¬ |cur + size - d| < t := fun hx => hnot (Or.inr (Or.inr hx))
      simp only [List.cons_append, scanAxis, hcq, if_neg h1, if_neg h2, if_neg h3]
      exact ih hrest

/-- The x output of findSnapPosition when the x scan hits. -/
theorem findSnapPosition_x_eq (cX cY w h t : ℚ) (points : List SnapPoint) (fx sx : ℚ)
    (hs : scanAxis cX w t (fun p => p.x) points = some (fx, sx)) :
    (findSnapPosition cX cY w h points t).x = fx ∧
    (findSnapPosition cX cY w h points t).snappedX = some sx := by
  unfold findSnapPosition
  rw [hs]
  rcases hy : scanAxis cY h t (fun p => p.y) points with _ | ⟨fy, sy⟩ <;> exact ⟨rfl, rfl⟩

/-- The x output of findSnapPosition when the x scan misses. -/
theorem findSnapPosition_x_none (cX cY w h t : ℚ) (points : List SnapPoint)
    (hs : scanAxis cX w t (fun p => p.x) points = none) :
    (findSnapPosition cX cY w h points t).x = cX ∧
    (findSnapPosition cX cY w h points t).snappedX = none := by
  unfold findSnapPosition
  rw [hs]
  rcases hy : scanAxis cY h t (fun p => p.y) points with _ | ⟨fy, sy⟩ <;> exact ⟨rfl, rfl⟩

/-- The y output of findSnapPosition when the y scan hits. -/
theorem findSnapPosition_y_eq (cX cY w h t : ℚ) (points : List SnapPoint) (fy sy : ℚ)
    (hs : scanAxis cY h t (fun p => p.y) points = some (fy, sy)) :
    (findSnapPosition cX cY w h points t).y = fy ∧
    (findSnapPosition cX cY w h points t).snappedY = some sy := by
  unfold findSnapPosition
  rw [hs]
  rcases hx : scanAxis cX w t (fun p => p.x) points with _ | ⟨fx, sx⟩ <;> exact ⟨rfl, rfl⟩

/-- The y output of findSnapPosition when the y scan misses. -/
theorem findSnapPosition_y_none (cX cY w h t : ℚ) (points : List SnapPoint)
    (hs : scanAxis cY h t (fun p => p.y) points = none) :
    (findSnapPosition cX cY w h points t).y = cY ∧
    (findSnapPosition cX cY w h points t).snappedY = none := by
  unfold findSnapPosition
  rw [hs]
  rcases hx : scanAxis cX w t (fun p => p.x) points with _ | ⟨fx, sx⟩ <;> exact ⟨rfl, rfl⟩

/-- C5: snapping is first-fit and per-axis.  On each axis independently, if
no point is within the threshold for any of the three features the
coordinate is returned unchanged with no snapped flag, and otherwise the
scan stops at the first hit point in list order, aligning the leading edge,
centre, or trailing edge, tested in that order, with that point. -/
theorem snap_first_fit (cX cY w h t : ℚ) (points : List SnapPoint) :
    ((∀ p ∈ points, ∀ c, p.x = some c → ¬ featHit cX w t c) →
      (findSnapPosition cX cY w h points t).x = cX ∧
      (findSnapPosition cX cY w h points t).snappedX = none) ∧
    (∀ l1 p l2, points = l1 ++ p :: l2 → ∀ c, p.x = some c → featHit cX w t c →
      (∀ q ∈ l1, ∀ d, q.x = some d → ¬ featHit cX w t d) →
      (findSnapPosition cX cY w h points t).x = alignFeat cX w t c ∧
      (findSnapPosition cX cY w h points t).snappedX = some c) ∧
    ((∀ p ∈ points, ∀ c, p.y = some c → ¬ featHit cY h t c) →
      (findSnapPosition cX cY w h points t).y = cY ∧
      (findSnapPosition cX cY w h points t).snappedY = none) ∧
    (∀ l1 p l2, points = l1 ++ p :: l2 → ∀ c, p.y = some c → featHit cY h t c →
      (∀ q ∈ l1, ∀ d, q.y = some d → ¬ featHit cY h t d) →
      (findSnapPosition cX cY w h points t).y = alignFeat cY h t c ∧
      (findSnapPosition cX cY w h points t).snappedY = some c) := by
  refine ⟨?_, ?_, ?_, ?_⟩
  · intro hnone
    exact findSnapPosition_x_none cX cY w h t points
      (scanAxis_eq_none cX w t (fun p => p.x) points hnone)
  · intro l1 p l2 hsplit c hc hhit hmiss
    subst hsplit
    exact findSnapPosition_x_eq cX cY w h t _ _ _
      (scanAxis_first cX w t (fun p => p.x) l1 l2 p c hc hhit hmiss)
  · intro hnone
    exact findSnapPosition_y_none cX cY w h t points
      (scanAxis_eq_none cY h t (fun p => p.y) points hnone)
  · intro l1 p l2 hsplit c hc hhit hmiss
    subst hsplit
    exact findSnapPosition_y_eq cX cY w h t _ _ _
      (scanAxis_first cY h t (fun p => p.y) l1 l2 p c hc hhit hmiss)

/-- Witness for C5: a single element line at x = 100 snaps the leading edge
of a span dragged to 95 (width 50), and the snapped flag names the point. -/
theorem snap_first_fit_witness :
    (findSnapPosition 95 0 50 0 [⟨some 100, none, SnapType.elem⟩] 10).x = 100 ∧
    (findSnapPosition 95 0 50 0 [⟨some 100, none, SnapType.elem⟩] 10).snappedX = some 100 := by
  have habs : |(95 : ℚ) - 100| < 10 := by
    rw [show (95 : ℚ) - 100 = -5 from by norm_num, abs_neg,
      abs_of_nonneg (by norm_num : (0 : ℚ) ≤ 5)]
    norm_num
  have halign : alignFeat 95 50 10 100 = 100 := by
    unfold alignFeat
    rw [if_pos habs]
  have hmain := (snap_first_fit 95 0 50 0 10 [⟨some 100, none, SnapType.elem⟩]).2.1
    [] ⟨some 100, none, SnapType.elem⟩ [] rfl 100 rfl (Or.inl habs)
    (fun q hq => absurd hq (List.not_mem_nil q))
  refine ⟨?_, hmain.2⟩
  rw [hmain.1]
  exact halign

/-- C3 (amended): when the dragged centre is within 10px of the canvas
horizontal centre line and the leading edge is not (the edge test runs
first and would win), the resolved x puts the centre exactly on
canvasWidth / 2; the canvas centre is always the first x point produced by
getSnapPoints, so no other point can preempt it. -/
theorem snap_center_exact (elements : List LayoutElement) (cw ch : ℚ) (excl : Option ℕ)
    (cX cY w h : ℚ) (hcen : |cX + w / 2 - cw / 2| < 10) (hedge : ¬ |cX - cw / 2| < 10) :
    (findSnapPosition cX cY w h (getSnapPoints elements cw ch excl) 10).x + w / 2 = cw / 2 := by
  have hs : scanAxis cX w 10 (fun p => p.x) (getSnapPoints elements cw ch excl)
      = some (alignFeat cX w 10 (cw / 2), cw / 2) :=
    scanAxis_first cX w 10 (fun p => p.x) [] _ ⟨some (cw / 2), none, SnapType.center⟩ (cw / 2)
      rfl (Or.inr (Or.inl hcen)) (fun q hq => absurd hq (List.not_mem_nil q))
  have ha : alignFeat cX w 10 (cw / 2) = cw / 2 - w / 2 := by
    unfold alignFeat
    rw [if_neg hedge, if_pos hcen]
  have hx := (findSnapPosition_x_eq cX cY w h 10 (getSnapPoints elements cw ch excl) _ _ hs).1
  rw [hx, ha]
  ring

/-- Witness for C3 at a concrete drag on an empty Stories canvas. -/
theorem snap_center_exact_witness :
    |(495 : ℚ) + 100 / 2 - 1080 / 2| < 10 ∧ ¬ |(495 : ℚ) - 1080 / 2| < 10 ∧
    (findSnapPosition 495 0 100 0 (getSnapPoints [] 1080 1920 none) 10).x + 100 / 2
      = 1080 / 2 := by
  have h1 : |(495 : ℚ) + 100 / 2 - 1080 / 2| < 10 := by
    rw [show (495 : ℚ) + 100 / 2 - 1080 / 2 = 5 from by norm_num,
      abs_of_nonneg (by norm_num : (0 : ℚ) ≤ 5)]
    norm_num
  have h2 : ¬ |(495 : ℚ) - 1080 / 2| < 10 := by
    rw [not_lt, le_abs]
    right
    norm_num
  exact ⟨h1, h2, snap_center_exact [] 1080 1920 none 495 0 100 0 h1 h2⟩

/-- C3 counterexample: a 4px-wide element dragged to x = 538 on a 1080-wide
canvas has its centre exactly on the canvas centre line, yet the left-edge
test fires first (538 is within 10px of 540), so the resolved x aligns the
left edge with the centre line and the resulting centre is 542, not 540. -/
theorem snap_center_left_edge_cex :
    |(538 : ℚ) + 4 / 2 - 1080 / 2| < 10 ∧
    (findSnapPosition 538 0 4 0 (getSnapPoints [] 1080 1920 none) 10).x + 4 / 2
      ≠ 1080 / 2 := by
  have hedge : |(538 : ℚ) - 1080 / 2| < 10 := by
    rw [show (538 : ℚ) - 1080 / 2 = -2 from by norm_num, abs_neg,
      abs_of_nonneg (by norm_num : (0 : ℚ) ≤ 2)]
    norm_num
  have hcen : |(538 : ℚ) + 4 / 2 - 1080 / 2| < 10 := by
    rw [show (538 : ℚ) + 4 / 2 - 1080 / 2 = 0 from by norm_num, abs_zero]
    norm_num
  have hs : scanAxis 538 4 10 (fun p => p.x) (getSnapPoints [] 1080 1920 none)
      = some (alignFeat 538 4 10 (1080 / 2), 1080 / 2) :=
    scanAxis_first 538 4 10 (fun p => p.x) [] _ ⟨some (1080 / 2), none, SnapType.center⟩
      (1080 / 2) rfl (Or.inl hedge) (fun q hq => absurd hq (List.not_mem_nil q))
  have ha : alignFeat 538 4 10 (1080 / 2) = 1080 / 2 := by
    unfold alignFeat
    rw [if_pos hedge]
  have hx := (findSnapPosition_x_eq 538 0 4 0 10 (getSnapPoints [] 1080 1920 none) _ _ hs).1
  refine ⟨hcen, ?_⟩
  rw [hx, ha]
  norm_num

/-- C4: the safe-zone snap lines are hard-coded to the 1080x1920 table entry.
On the Square 1080x1080 canvas, whose SAFE_ZONES entry is all zero, the code
still emits the Stories lines y = 200 and y = canvasHeight - 250. -/
theorem safe_zone_lines_hardcoded_format :
    SAFE_ZONES "1080x1080" = some ⟨0, 0, 0, 0⟩ ∧
    (⟨none, some 200, SnapType.safeZone⟩ : SnapPoint) ∈ getSnapPoints [] 1080 1080 none ∧
    (⟨none, some ((1080 : ℚ) - 250), SnapType.safeZone⟩ : SnapPoint)
      ∈ getSnapPoints [] 1080 1080 none := by
  refine ⟨by decide, ?_, ?_⟩ <;>
    simp [getSnapPoints, SAFE_ZONES, elementSnapPoints]

/-- setLayout with a non-null layout preserves the history invariant. -/
theorem setLayout_inv (s : StoreState) (hs : StoreInv s) (l : Layout) :
    StoreInv (setLayout s (some l)) := by
  obtain ⟨h0, h1, h2⟩ := hs
  have hlen : (s.history.take (s.historyIndex + 1).toNat).length
      = min (s.historyIndex + 1).toNat s.history.length := List.length_take _ _
  unfold MAX_HISTORY at h2
  unfold StoreInv setLayout MAX_HISTORY
  dsimp only
  by_cases hbig : (s.history.take (s.historyIndex + 1).toNat ++ [l]).length > 50
  · rw [if_pos hbig]
    refine ⟨?_, ?_, ?_⟩ <;>
      (simp only [List.length_tail, List.length_append, List.length_cons, List.length_nil,
        hlen] at hbig ⊢; omega)
  · rw [if_neg hbig]
    refine ⟨?_, ?_, ?_⟩ <;>
      (simp only [List.length_append, List.length_cons, List.length_nil, hlen] at hbig ⊢; omega)

/-- undo preserves the history invariant. -/
theorem undo_inv (s : StoreState) (hs : StoreInv s) : StoreInv (undo s) := by
  obtain ⟨h0, h1, h2⟩ := hs
  unfold undo
  by_cases h : s.historyIndex > 0
  · rw [if_pos h]
    refine ⟨?_, ?_, ?_⟩ <;> dsimp only <;> omega
  · rw [if_neg h]
    exact ⟨h0, h1, h2⟩

/-- redo preserves the history invariant. -/
theorem redo_inv (s : StoreState) (hs : StoreInv s) : StoreInv (redo s) := by
  obtain ⟨h0, h1, h2⟩ := hs
  unfold redo
  by_cases h : s.historyIndex < (s.history.length : ℤ) - 1
  · rw [if_pos h]
    refine ⟨?_, ?_, ?_⟩ <;> dsimp only <;> omega
  · rw [if_neg h]
    exact ⟨h0, h1, h2⟩

/-- C10: every store operation preserves the history invariant
0 ≤ historyIndex ≤ history.length - 1 and history.length ≤ MAX_HISTORY, and
canUndo and canRedo report exactly historyIndex > 0 and
historyIndex < history.length - 1. -/
theorem store_history_invariant (s : StoreState) (hs : StoreInv s) (l : Layout)
    (e : LayoutElement) (id : String) (u : ElementUpdates) :
    StoreInv (setLayout s (some l)) ∧ StoreInv (addElement s e) ∧
    StoreInv (updateElement s id u) ∧ StoreInv (removeElement s id) ∧
    StoreInv (undo s) ∧ StoreInv (redo s) ∧
    (canUndo s = true ↔ 0 < s.historyIndex) ∧
    (canRedo s = true ↔ s.historyIndex < (s.history.length : ℤ) - 1) := by
  refine ⟨setLayout_inv s hs l, ?_, ?_, ?_, undo_inv s hs, redo_inv s hs, ?_, ?_⟩
  · cases hsl : s.layout with
    | none => simp only [addElement, hsl]; exact hs
    | some layout => simp only [addElement, hsl]; exact setLayout_inv s hs _
  · cases hsl : s.layout with
    | none => simp only [updateElement, hsl]; exact hs
    | some layout => simp only [updateElement, hsl]; exact setLayout_inv s hs _
  · cases hsl : s.layout with
    | none => simp only [removeElement, hsl]; exact hs
    | some layout => simp only [removeElement, hsl]; exact setLayout_inv s hs _
  · simp [canUndo]
  · simp [canRedo]

/-- Witness for C10 at the concrete initial store state of the source. -/
theorem store_history_invariant_witness :
    StoreInv initialStore ∧ StoreInv (setLayout initialStore (some demoLayout)) ∧
    (canUndo initialStore = true ↔ 0 < initialStore.historyIndex) := by
  have hinv : StoreInv initialStore := by
    refine ⟨by decide, ?_, by decide⟩
    decide
  have h := store_history_invariant initialStore hinv demoLayout
    ⟨"logo", none, none, none, none, none, none, none, none⟩ "a"
    ⟨none, none, none, none, none, none, none⟩
  exact ⟨hinv, h.1, h.2.2.2.2.2.2.1⟩

/-- The parsed bytes of the four anchor colours. -/
theorem anchor_colors_parse :
    rgbBytes "#FFFFFF" = some (255, 255, 255) ∧ rgbBytes "#000000" = some (0, 0, 0) ∧
    rgbBytes "#FEFEFE" = some (254, 254, 254) ∧ rgbBytes "#CCCCCC" = some (204, 204, 204) := by
  refine ⟨?_, ?_, ?_, ?_⟩ <;> decide

/-- Luminance over parsed bytes. -/
theorem getLuminance_of_bytes (hex : String) (r g b : ℕ) (h : rgbBytes hex = some (r, g, b)) :
    getLuminance hex = 0.2126 * gammaCorrect (r / 255) + 0.7152 * gammaCorrect (g / 255)
      + 0.0722 * gammaCorrect (b / 255) := by
  unfold getLuminance
  rw [h]

/-- The gamma curve at full intensity. -/
theorem gammaCorrect_one : gammaCorrect 1 = 1 := by
  unfold gammaCorrect
  rw [if_neg (by norm_num : ¬ (1 : ℝ) ≤ 0.03928),
    show ((1 : ℝ) + 0.055) / 1.055 = 1 from by norm_num]
  exact Real.one_rpow _

/-- The gamma curve at zero. -/
theorem gammaCorrect_zero : gammaCorrect 0 = 0 := by
  unfold gammaCorrect
  rw [if_pos (by norm_num : (0 : ℝ) ≤ 0.03928)]
  norm_num

/-- White has luminance one. -/
theorem lum_white : getLuminance "#FFFFFF" = 1 := by
  rw [getLuminance_of_bytes _ 255 255 255 anchor_colors_parse.1]
  norm_num [gammaCorrect_one]

/-- Black has luminance zero. -/
theorem lum_black : getLuminance "#000000" = 0 := by
  rw [getLuminance_of_bytes _ 0 0 0 anchor_colors_parse.2.1]
  norm_num [gammaCorrect_zero]

/-- Bounds on the near-white luminance: its gamma base is 10721/10761, its
cube bounds the real power from below, and the power is at most one. -/
theorem lum_fefefe_bounds : 199 / 220 < getLuminance "#FEFEFE" ∧ getLuminance "#FEFEFE" ≤ 1 := by
  have hpos : (0 : ℝ) < 10721 / 10761 := by norm_num
  have hle1 : (10721 : ℝ) / 10761 ≤ 1 := by norm_num
  have hgamma : gammaCorrect ((254 : ℝ) / 255) = ((10721 : ℝ) / 10761) ^ (2.4 : ℝ) := by
    unfold gammaCorrect
    rw [if_neg (by norm_num : ¬ (254 : ℝ) / 255 ≤ 0.03928),
      show ((254 : ℝ) / 255 + 0.055) / 1.055 = 10721 / 10761 from by norm_num]
  have hval : getLuminance "#FEFEFE" = ((10721 : ℝ) / 10761) ^ (2.4 : ℝ) := by
    rw [getLuminance_of_bytes _ 254 254 254 anchor_colors_parse.2.2.1,
      show ((254 : ℕ) : ℝ) / 255 = (254 : ℝ) / 255 from by norm_num, hgamma]
    ring
  have hlow : ((10721 : ℝ) / 10761) ^ (3 : ℝ) ≤ ((10721 : ℝ) / 10761) ^ (2.4 : ℝ) :=
    Real.rpow_le_rpow_of_exponent_ge hpos hle1 (by norm_num)
  have h3 : ((10721 : ℝ) / 10761) ^ (3 : ℝ) = ((10721 : ℝ) / 10761) ^ (3 : ℕ) := by
    rw [← Real.rpow_natCast ((10721 : ℝ) / 10761) 3]
    norm_num
  have hcube : (199 : ℝ) / 220 < ((10721 : ℝ) / 10761) ^ (3 : ℕ) := by norm_num
  have hup : ((10721 : ℝ) / 10761) ^ (2.4 : ℝ) ≤ 1 :=
    Real.rpow_le_one (le_of_lt hpos) hle1 (by norm_num)
  rw [hval]
  refine ⟨?_, hup⟩
  calc (199 : ℝ) / 220 < ((10721 : ℝ) / 10761) ^ (3 : ℕ) := hcube
    _ = ((10721 : ℝ) / 10761) ^ (3 : ℝ) := h3.symm
    _ ≤ ((10721 : ℝ) / 10761) ^ (2.4 : ℝ) := hlow

/-- Bounds on the light-grey luminance: gamma base 171/211, cube lower
bound, and at most one. -/
theorem lum_cccccc_bounds : 11 / 60 < getLuminance "#CCCCCC" ∧ getLuminance "#CCCCCC" ≤ 1 := by
  have hpos : (0 : ℝ) < 171 / 211 := by norm_num
  have hle1 : (171 : ℝ) / 211 ≤ 1 := by norm_num
  have hgamma : gammaCorrect ((204 : ℝ) / 255) = ((171 : ℝ) / 211) ^ (2.4 : ℝ) := by
    unfold gammaCorrect
    rw [if_neg (by norm_num : ¬ (204 : ℝ) / 255 ≤ 0.03928),
      show ((204 : ℝ) / 255 + 0.055) / 1.055 = 171 / 211 from by norm_num]
  have hval : getLuminance "#CCCCCC" = ((171 : ℝ) / 211) ^ (2.4 : ℝ) := by
    rw [getLuminance_of_bytes _ 204 204 204 anchor_colors_parse.2.2.2,
      show ((204 : ℕ) : ℝ) / 255 = (204 : ℝ) / 255 from by norm_num, hgamma]
    ring
  have hlow : ((171 : ℝ) / 211) ^ (3 : ℝ) ≤ ((171 : ℝ) / 211) ^ (2.4 : ℝ) :=
    Real.rpow_le_rpow_of_exponent_ge hpos hle1 (by norm_num)
  have h3 : ((171 : ℝ) / 211) ^ (3 : ℝ) = ((171 : ℝ) / 211) ^ (3 : ℕ) := by
    rw [← Real.rpow_natCast ((171 : ℝ) / 211) 3]
    norm_num
  have hcube : (11 : ℝ) / 60 < ((171 : ℝ) / 211) ^ (3 : ℕ) := by norm_num
  have hup : ((171 : ℝ) / 211) ^ (2.4 : ℝ) ≤ 1 :=
    Real.rpow_le_one (le_of_lt hpos) hle1 (by norm_num)
  rw [hval]
  refine ⟨?_, hup⟩
  calc (11 : ℝ) / 60 < ((171 : ℝ) / 211) ^ (3 : ℕ) := hcube
    _ = ((171 : ℝ) / 211) ^ (3 : ℝ) := h3.symm
    _ ≤ ((171 : ℝ) / 211) ^ (2.4 : ℝ) := hlow

/-- C6: meetsWCAGAA holds exactly when the contrast ratio reaches 4.5 below
the large-text threshold 24, and 3 at or above it. -/
theorem meetsWCAGAA_iff (textColor bgColor : String) (fontSize : ℚ) :
    meetsWCAGAA textColor bgColor fontSize ↔
       calculateContrastRatio textColor bgColor ≥ (if fontSize < 24 then (4.5 : ℝ) else 3) := by
  unfold meetsWCAGAA
  rcases lt_or_le fontSize 24 with hf | hf
  · rw [if_neg (not_le.mpr hf), if_pos hf]
  · rw [if_pos hf, if_neg (not_lt.mpr hf)]

/-- C7: the contrast anchors: white on black is exactly 21, white on
near-white FEFEFE is below 1.1, and light grey CCCCCC on white is below the
4.5 threshold. -/
theorem contrast_anchor_values :
    calculateContrastRatio "#FFFFFF" "#000000" = 21 ∧
    calculateContrastRatio "#FFFFFF" "#FEFEFE" < 1.1 ∧
    calculateContrastRatio "#CCCCCC" "#FFFFFF" < 4.5 := by
  refine ⟨?_, ?_, ?_⟩
  · unfold calculateContrastRatio
    rw [lum_white, lum_black, max_eq_left (by norm_num : (0 : ℝ) ≤ 1),
      min_eq_right (by norm_num : (0 : ℝ) ≤ 1)]
    norm_num
  · unfold calculateContrastRatio
    obtain ⟨hl, hu⟩ := lum_fefefe_bounds
    rw [lum_white, max_eq_left hu, min_eq_right hu,
      div_lt_iff₀ (by linarith : (0 : ℝ) < getLuminance "#FEFEFE" + 0.05)]
    linarith
  · unfold calculateContrastRatio
    obtain ⟨hl, hu⟩ := lum_cccccc_bounds
    rw [lum_white, max_eq_right hu, min_eq_left hu,
      div_lt_iff₀ (by linarith : (0 : ℝ) < getLuminance "#CCCCCC" + 0.05)]
    linarith

end RetailStudio
